import Mathlib

/-!
Verification development for the titiler-cmr-compatibility pipeline.

The Python package under `titiler_cmr_compatibility/` is shallowly embedded
here: pure metadata/classification logic is translated to executable Lean
functions; the external collaborators (CMR catalog, `earthaccess` link
resolution, the rasterio/xarray file openers, the titiler tiling backend,
the S3 client, the multiprocessing pool) are modelled as explicit inputs or
oracles, and side effects (opener calls, tile calls, S3 puts/deletes) are
returned as explicit event lists.  Python exceptions are modelled with
`Except PyErr`.
-/

namespace TCC

/-- Python exceptions that the embedded code can raise.  `typeError` models a
call with an unexpected keyword argument or `str.join` applied to `None`;
`attributeError` models a failed attribute lookup (e.g. a missing enum
member); `valueError` models explicit `raise ValueError`. -/
inductive PyErr where
  | typeError (msg : String)
  | attributeError (msg : String)
  | valueError (msg : String)
deriving DecidableEq, Repr

/-- The message carried by an exception (Python `str(e)`). -/
def PyErr.message : PyErr → String
  | .typeError m => m
  | .attributeError m => m
  | .valueError m => m

/-- Models `tiling.py` lines 35-43: the closed enumeration of incompatibility
reasons.  Note that the enumeration has exactly these seven members; there is
no `FAILED_TO_EXTRACT_URL` member. -/
inductive IncompatibilityReason where
  | UNSUPPORTED_FORMAT
  | CANT_OPEN_FILE
  | TILE_GENERATION_FAILED
  | NO_GRANULE_FOUND
  | FAILED_TO_EXTRACT
  | TIMEOUT
  | CANT_EXTRACT_VARIABLES
deriving DecidableEq, Repr

/-- The `.value` string of each enum member (`tiling.py` lines 37-43). -/
def IncompatibilityReason.value : IncompatibilityReason → String
  | .UNSUPPORTED_FORMAT => "unsupported_format"
  | .CANT_OPEN_FILE => "cant_open_file"
  | .TILE_GENERATION_FAILED => "tile_generation_failed"
  | .NO_GRANULE_FOUND => "no_granule_found"
  | .FAILED_TO_EXTRACT => "failed_to_extract"
  | .TIMEOUT => "timeout"
  | .CANT_EXTRACT_VARIABLES => "cant_extract_variables"

/-- Python attribute lookup on the `IncompatibilityReason` enum class: the
member whose declared name is the given string, or `none` when the class has
no such attribute (in which case Python raises `AttributeError`). -/
def IncompatibilityReason.memberNamed : String → Option IncompatibilityReason
  | "UNSUPPORTED_FORMAT" => some .UNSUPPORTED_FORMAT
  | "CANT_OPEN_FILE" => some .CANT_OPEN_FILE
  | "TILE_GENERATION_FAILED" => some .TILE_GENERATION_FAILED
  | "NO_GRANULE_FOUND" => some .NO_GRANULE_FOUND
  | "FAILED_TO_EXTRACT" => some .FAILED_TO_EXTRACT
  | "TIMEOUT" => some .TIMEOUT
  | "CANT_EXTRACT_VARIABLES" => some .CANT_EXTRACT_VARIABLES
  | _ => none

/-! ### constants.py -/

def TITILER_CMR_ENDPOINT : String := "https://staging.openveda.cloud/api/titiler-cmr"

def HDF_FORMATS : List String := ["HDF", "HDF5", "HDF-EOS5"]
def HDF_EXTENSIONS : List String := ["hdf", "hdf5", "h5"]
def NETCDF_FORMATS : List String := ["NetCDF", "netCDF-4", "netCDFnetCDF-4 classic"]
def NETCDF_EXTENSIONS : List String := ["nc", "nc4"]
def COG_FORMATS : List String := ["COG"]
def COG_EXTENSIONS : List String := ["cog", "tif", "tiff"]
def ZARR_FORMATS : List String := ["zarr"]
def ZARR_EXTENSIONS : List String := ["zarr"]

def SUPPORTED_FORMATS : List String :=
  HDF_FORMATS ++ NETCDF_FORMATS ++ COG_FORMATS ++ ZARR_FORMATS

def SUPPORTED_EXTENSIONS : List String :=
  HDF_EXTENSIONS ++ NETCDF_EXTENSIONS ++ COG_EXTENSIONS ++ ZARR_EXTENSIONS

def DEFAULT_TILE_X : Nat := 0
def DEFAULT_TILE_Y : Nat := 0
def DEFAULT_TILE_Z : Nat := 0

/-! ### known_variables.py -/

/-- The allow-list from `known_variables.py` (a Python set literal; membership
is all that is ever used of it, so a list model is adequate — the source list
even repeats `"tmax"`). -/
def known_variables : List String :=
  ["Tair", "SnowDepth", "Rainf", "Snowf_tavg", "wind"] ++
  ["aerosol_optical_thickness_ocean", "ColumnAmountNO2", "precip"] ++
  ["EVAP", "TS", "precipitation", "srad", "SO2", "O3", "xco2", "prec"] ++
  ["SnowDepth_tavg", "tmax", "SO2CMASS", "sma", "soil_moisture_c1", "tas", "RZSM", "GPP"] ++
  ["reflectance", "WINDSPD", "PSurf", "tmax"]

/-! ### validation.py -/

/-- Python `str.lower` restricted to the ASCII format/extension tokens the
code compares (all of `constants.py` is ASCII). -/
def pyLower (s : String) : String := String.mk (s.data.map Char.toLower)

/-- Models `validation.is_supported` (validation.py lines 13-39). -/
def is_supported (value : String) (check_formats check_extensions : Bool) : Bool :=
  let value_lower := pyLower value
  (check_formats && (SUPPORTED_FORMATS.map pyLower).contains value_lower) ||
  (check_extensions && (SUPPORTED_EXTENSIONS.map pyLower).contains value_lower)

/-- Models `validation.is_supported_format`: checks both the format set and (as
aliases) the extension set. -/
def is_supported_format (file_format : String) : Bool :=
  is_supported file_format true true

/-- Models `validation.is_supported_extension`: checks the extension set only. -/
def is_supported_extension (file_ext : String) : Bool :=
  is_supported file_ext false true

/-! ### Small Python-semantics helpers -/

/-- Python truthiness of an optional string (`None` and `""` are falsy). -/
def pyTruthyStr : Option String → Bool
  | none => false
  | some s => s ≠ ""

/-- Python truthiness of an optional list (`None` and `[]` are falsy). -/
def pyTruthyList : Option (List String) → Bool
  | none => false
  | some l => l ≠ []

/-- Python `a or b` on two optional strings (`None` and `""` are falsy, and a
falsy left operand yields the right operand). -/
def pyOrStr (a b : Option String) : Option String :=
  if pyTruthyStr a then a else b

/-- Python keyword-argument calling semantics: a call whose keyword names are
not all among the callee's parameter names raises `TypeError` before the body
runs; otherwise the body's result is returned. -/
def pyCallKw (params kwargs : List String) (body : α) : Except PyErr α :=
  if kwargs.all (fun k => params.contains k) then .ok body
  else .error (.typeError "got an unexpected keyword argument")

/-- Python `"/".join(pair)` over the 2-tuple produced by `parse_temporal`:
joining succeeds only when both components are strings; a `None` component
raises `TypeError` (`sequence item: expected str instance, NoneType found`). -/
def pyJoinPair : Option String × Option String → Except PyErr String
  | (some a, some b) => .ok (a ++ "/" ++ b)
  | _ => .error (.typeError "sequence item: expected str instance, NoneType found")

/-- The suffix of `cs` after its last occurrence of `sep` (all of `cs` when
`sep` does not occur). -/
def lastSegment (cs : List Char) (sep : Char) : List Char :=
  (cs.reverse.takeWhile (fun c => c ≠ sep)).reverse

/-- Models `os.path.splitext(url)[1].lstrip('.')` (tiling.py line 160 and
metadata.py line 269): the extension of the last path segment, where leading
dots of the segment do not begin an extension. -/
def splitextExtension (url : String) : String :=
  let base := lastSegment url.data '/'
  let core := base.dropWhile (fun c => c = '.')
  if core.contains '.' then String.mk (lastSegment core '.') else ""

/-! ### The data model

The external CMR catalog and `earthaccess` are collaborators; the parts of a
granule's UMM JSON record that the embedded code reads are modelled as the
fields below (each field documents the JSON path it stands for). -/

/-- One entry of a granule's `umm.RelatedUrls` list, as read by
`metadata.get_data_url`. -/
structure RelatedUrl where
  /-- Models `"Type"`. -/
  urlType : Option String
  /-- Models `"Subtype"`. -/
  subtype : Option String
  /-- Models `"URL"`. -/
  url : Option String
deriving DecidableEq, Repr

structure GranuleMetadata where
  /-- Models `meta.concept-id`. -/
  concept_id : Option String
  /-- Models `meta.collection-concept-id`. -/
  collection_concept_id : Option String
  /-- Models `meta.provider-id`. -/
  provider_id : Option String
  /-- Models `umm.GranuleUR`. -/
  granule_ur : Option String
  /-- Models `umm.RelatedUrls`. -/
  related_urls : List RelatedUrl
  /-- Models `DataGranule(...).data_links(access="direct")` (s3 links). -/
  direct_links : List String
  /-- Models `DataGranule(...).data_links(access="external")` (https links). -/
  external_links : List String
  /-- Models `umm.DataGranule.ArchiveAndDistributionInformation[...].Format`
  (the lookup implemented by `_extract_file_format_from_granule`). -/
  archive_format : Option String
  /-- Models `umm.TemporalExtent.RangeDateTime.BeginningDateTime`. -/
  temporal_begin : Option String
  /-- Models `umm.TemporalExtent.RangeDateTime.EndingDateTime`. -/
  temporal_end : Option String
deriving DecidableEq, Repr

structure CollectionMetadata where
  /-- Models `meta.concept-id`. -/
  concept_id : Option String
  /-- Models `umm.ArchiveAndDistributionInformation.FileArchiveInformation.Format`
  (the lookup implemented by `metadata.extract_collection_file_format`). -/
  file_archive_format : Option String
  /-- Models `umm.DataCenters[].ShortName` (deduplicated by
  `metadata.extract_data_centers`). -/
  data_center_names : List String
  /-- What `api.fetch_random_granule_metadata` returns for this collection
  (the catalog is an external collaborator, so the granule it serves is part
  of the input; `none` models "no granules found"). -/
  fetched_granule : Option GranuleMetadata
deriving DecidableEq, Repr

/-- Outcome of one opener call (`helpers.open_rasterio_dataset` /
`helpers.open_xarray_dataset` are external collaborators). `opened vars`
carries the enumerated band descriptions / data variable names. -/
inductive OpenResult where
  | opened (vars : List String)
  | raises (msg : String)
deriving DecidableEq, Repr

/-- The two file openers, as oracles from URL to outcome. -/
structure Openers where
  open_rasterio_dataset : String → OpenResult
  open_xarray_dataset : String → OpenResult

/-- Outcome of the single `src_dst.tile(...)` call inside `test_tiling`
(the titiler `CMRBackend` is an external collaborator). -/
inductive TileOutcome where
  | ok
  | raises (msg : String)
deriving DecidableEq, Repr

/-- Observable calls to the external openers and the tiling backend. -/
inductive Event where
  | openRasterioCall (url : String)
  | openXarrayCall (url : String)
  | tileCall
deriving DecidableEq, Repr

/-- The reader family configured by `_setup_reader` (`rio_tiler.io.Reader`
vs `titiler.xarray.io.Reader`). -/
inductive ReaderKind where
  | rio
  | xarray
deriving DecidableEq, Repr

/-- The `GranuleTilingInfo` dataclass (`tiling.py` lines 46-114).  Fields
marked `init=False` in the source start at their defaults and are only filled
by `__post_init__`; `reader_options_variable` models the `"variable"` entry
of `reader_options` (absent for the rasterio backend's empty options). -/
structure GranuleTilingInfo where
  collection_concept_id : String
  granule_metadata : Option GranuleMetadata := none
  num_granules : Option Nat := none
  collection_file_format : Option String := none
  access_type : String := "direct"
  data_center_short_name : Option String := none
  concept_id : Option String := none
  data_url : Option String := none
  temporal_extent : Option (Option String × Option String) := none
  data_variables : Option (List String) := none
  backend : Option String := none
  format : Option String := none
  extension : Option String := none
  tiles_url : Option String := none
  reader : Option ReaderKind := none
  reader_options_variable : Option String := none
  variableName : Option String := none
  error_message : Option String := none
  tiling_compatible : Bool := false
  incompatible_reason : Option IncompatibilityReason := none
deriving DecidableEq, Repr

/-- The dictionary produced by `GranuleTilingInfo.to_report_dict`
(`tiling.py` lines 370-392). -/
structure ReportDict where
  collection_concept_id : String
  concept_id : Option String
  data_center : Option String
  data_url : Option String
  backend : Option String
  format : Option String
  extension : Option String
  tiling_compatible : Bool
  incompatible_reason : Option String
  error_message : Option String
  tiles_url : Option String
  variableName : Option String
  data_variables : Option (List String)
  num_granules : Option Nat
deriving DecidableEq, Repr

/-- Models `GranuleTilingInfo.to_report_dict`. -/
def GranuleTilingInfo.to_report_dict (i : GranuleTilingInfo) : ReportDict :=
  { collection_concept_id := i.collection_concept_id
  , concept_id := i.concept_id
  , data_center := i.data_center_short_name
  , data_url := i.data_url
  , backend := i.backend
  , format := i.format
  , extension := i.extension
  , tiling_compatible := i.tiling_compatible
  , incompatible_reason := i.incompatible_reason.map IncompatibilityReason.value
  , error_message := i.error_message
  , tiles_url := i.tiles_url
  , variableName := i.variableName
  , data_variables := i.data_variables
  , num_granules := i.num_granules }

/-! ### GranuleTilingInfo.__post_init__ (tiling.py lines 90-317) -/

/-- Models `_extract_concept_id` (tiling.py lines 116-119). -/
def _extract_concept_id (info : GranuleTilingInfo) (g : GranuleMetadata) : GranuleTilingInfo :=
  { info with concept_id := g.concept_id }

/-- Models `DataGranule.data_links(access=...)` (earthaccess collaborator): the
granule's link list for the requested access class. -/
def data_links (g : GranuleMetadata) (access : String) : List String :=
  if access = "direct" then g.direct_links else g.external_links

/-- Models `_extract_data_url` (tiling.py lines 121-145): first link of the
requested access class, falling back to the `"external"` class when the
requested class was `"direct"` and empty; when no link is found the reason
`FAILED_TO_EXTRACT` is recorded.  (`data_links` is modelled as total, so the
source's `except` arm, which records the same reason, has no separate case.) -/
def _extract_data_url (info : GranuleTilingInfo) (g : GranuleMetadata) : GranuleTilingInfo :=
  let url : Option String :=
    match data_links g info.access_type with
    | u :: _ => some u
    | [] =>
        if info.access_type = "direct" then
          match data_links g "external" with
          | u :: _ => some u
          | [] => none
        else none
  match url with
  | some u => { info with data_url := some u }
  | none =>
      { info with
          error_message := some "Could not find data URL in granule metadata"
        , incompatible_reason := some .FAILED_TO_EXTRACT }

/-- Models `_extract_temporal_extent` (tiling.py lines 147-151) via
`umm_helpers.parse_temporal`: always a 2-tuple, either component possibly
absent. -/
def _extract_temporal_extent (info : GranuleTilingInfo) (g : GranuleMetadata) : GranuleTilingInfo :=
  { info with temporal_extent := some (g.temporal_begin, g.temporal_end) }

/-- Models `_extract_format_and_extension` (tiling.py lines 153-160): collection
format preferred over granule-level format; extension from the data URL when
one was resolved. -/
def _extract_format_and_extension (info : GranuleTilingInfo) (g : GranuleMetadata) :
    GranuleTilingInfo :=
  let fmt := pyOrStr info.collection_file_format g.archive_format
  match info.data_url with
  | some u => { info with format := fmt, extension := some (splitextExtension u) }
  | none => { info with format := fmt }

/-- Models `_validate_format` (tiling.py lines 189-212).  Returns `false` without a
reason when no data URL was resolved; otherwise checks the declared format
(when present) or the extension, recording `UNSUPPORTED_FORMAT` on failure.
(The extension is always a string here whenever the format is absent and a
data URL exists, so `getD ""` is never the consulted value.) -/
def _validate_format (info : GranuleTilingInfo) : Bool × GranuleTilingInfo :=
  match info.data_url with
  | none => (false, info)
  | some _ =>
      match info.format with
      | some f =>
          if is_supported_format f then (true, info)
          else
            (false,
             { info with
                 error_message := some ("Format " ++ f ++ " is not supported")
               , incompatible_reason := some .UNSUPPORTED_FORMAT })
      | none =>
          if is_supported_extension (info.extension.getD "") then (true, info)
          else
            (false,
             { info with
                 error_message :=
                   some ("Extension " ++ info.extension.getD "" ++ " is not supported")
               , incompatible_reason := some .UNSUPPORTED_FORMAT })

/-- The rasterio-or-xarray routing test of
`_extract_data_variables_and_backend` (tiling.py line 222):
`file_format in COG_FORMATS or file_format in COG_EXTENSIONS`
(case-sensitive; `None` is in neither list). -/
def isCogRoute (file_format : Option String) : Bool :=
  match file_format with
  | some s => COG_FORMATS.contains s || COG_EXTENSIONS.contains s
  | none => false

/-- Models `_extract_data_variables_and_backend` (tiling.py lines 214-243): opens
the file through the route-appropriate opener, records the enumerated
variables and the backend, and on an opener exception records
`CANT_OPEN_FILE`; an empty variable enumeration records
`CANT_EXTRACT_VARIABLES` (with the backend already set).  The returned event
list records the opener calls made. -/
def _extract_data_variables_and_backend (openers : Openers) (info : GranuleTilingInfo) :
    GranuleTilingInfo × List Event :=
  match info.data_url with
  | none => (info, [])
  | some url =>
      -- file_format = self.format or self.extension (tiling.py line 220)
      if isCogRoute (pyOrStr info.format info.extension) then
        match openers.open_rasterio_dataset url with
        | .opened vars =>
            if vars = [] then
              ({ info with
                   data_variables := some vars, backend := some "rasterio"
                 , error_message := some "Can't extract variables"
                 , incompatible_reason := some .CANT_EXTRACT_VARIABLES },
               [.openRasterioCall url])
            else
              ({ info with data_variables := some vars, backend := some "rasterio" },
               [.openRasterioCall url])
        | .raises m =>
            ({ info with
                 error_message := some ("Error opening " ++ url ++ ": " ++ m)
               , incompatible_reason := some .CANT_OPEN_FILE },
             [.openRasterioCall url])
      else
        match openers.open_xarray_dataset url with
        | .opened vars =>
            if vars = [] then
              ({ info with
                   data_variables := some vars, backend := some "xarray"
                 , error_message := some "Can't extract variables"
                 , incompatible_reason := some .CANT_EXTRACT_VARIABLES },
               [.openXarrayCall url])
            else
              ({ info with data_variables := some vars, backend := some "xarray" },
               [.openXarrayCall url])
        | .raises m =>
            ({ info with
                 error_message := some ("Error opening " ++ url ++ ": " ++ m)
               , incompatible_reason := some .CANT_OPEN_FILE },
             [.openXarrayCall url])

/-- The xarray variable choice of `_setup_reader` (tiling.py lines 256-261):
the first enumerated variable in the allow-list, else the first enumerated
variable (the allow-list members are nonempty strings, so the source's
truthiness test on the found variable is a `None` test). -/
def chooseXarrayVariable (vars : List String) : Option String :=
  match vars.find? (fun v => known_variables.contains v) with
  | some v => some v
  | none => if vars.length > 0 then vars.head? else none

/-- Models `_setup_reader` (tiling.py lines 245-265). -/
def _setup_reader (info : GranuleTilingInfo) : GranuleTilingInfo :=
  if !(pyTruthyStr info.backend) || !(pyTruthyList info.data_variables) then info
  else if info.backend = some "rasterio" then
    { info with reader := some .rio, reader_options_variable := none }
  else if info.backend = some "xarray" then
    let v := chooseXarrayVariable (info.data_variables.getD [])
    { info with reader := some .xarray, variableName := v, reader_options_variable := v }
  else info

/-- Models `generate_tiles_url_for_granule` (tiling.py lines 267-317).  For the
xarray backend the source tests `if self.temporal_extent:` — the field is a
2-tuple whenever it was set, and a non-empty tuple is truthy even when both
components are `None`, so the `else` arm (returning no URL) is reached only
when the field was never set; the `'/'.join` then raises `TypeError` whenever
either component is absent. -/
def generate_tiles_url_for_granule (info : GranuleTilingInfo)
    (tile_x tile_y tile_z : Nat) : Except PyErr (Option String) :=
  if !(pyTruthyStr info.backend) || !(pyTruthyList info.data_variables) then
    .error (.valueError "Cannot generate tiles URL without backend and data variables")
  else
    let base_url :=
      TITILER_CMR_ENDPOINT ++ "/tiles/WebMercatorQuad/" ++ Nat.repr tile_z ++ "/" ++
      Nat.repr tile_x ++ "/" ++ Nat.repr tile_y ++ ".png?concept_id=" ++
      info.collection_concept_id ++ "&backend=" ++ (info.backend.getD "")
    if info.backend = some "rasterio" then .ok (some base_url)
    else if info.backend = some "xarray" then
      let vars := info.data_variables.getD []
      let v := vars.find? (fun x => known_variables.contains x)
      match info.temporal_extent with
      | some te =>
          match pyJoinPair te with
          | .error e => .error e
          | .ok datetime_param =>
              match v with
              | some v =>
                  .ok (some (base_url ++ "&variable=" ++ v ++ "&datetime=" ++ datetime_param))
              | none =>
                  .ok (some (base_url ++ "&variable=" ++ vars.headD "" ++ "&datetime=" ++
                             datetime_param))
      | none => .ok none
    else .ok none

/-- The final step of `__post_init__` (tiling.py lines 112-114): generate the
tiles URL when both backend and data variables are truthy.  A `TypeError`
from the URL builder propagates out of the constructor. -/
def finishTilesUrl (info : GranuleTilingInfo) : Except PyErr GranuleTilingInfo :=
  if pyTruthyStr info.backend && pyTruthyList info.data_variables then
    match generate_tiles_url_for_granule info DEFAULT_TILE_X DEFAULT_TILE_Y DEFAULT_TILE_Z with
    | .ok u => .ok { info with tiles_url := u }
    | .error e => .error e
  else .ok info

/-- The `if self.granule_metadata:` block of `__post_init__` (tiling.py
lines 93-110) followed by the tiles-URL step: the staged extraction,
validation (stopping the initialization on an unsupported format), variable
and backend extraction, reader setup, and URL generation. -/
def post_init_with_granule (openers : Openers) (info0 : GranuleTilingInfo)
    (g : GranuleMetadata) : Except PyErr GranuleTilingInfo × List Event :=
  let i1 := _extract_concept_id info0 g
  let i2 := _extract_data_url i1 g
  let i3 := _extract_temporal_extent i2 g
  let i4 := _extract_format_and_extension i3 g
  -- `_validate_format` models the source's mutating method as
  -- (returned bool, mutated self); `if not ...: return` stops here
  let v := _validate_format i4
  if v.1 = false then (.ok v.2, [])
  else
    let ev := _extract_data_variables_and_backend openers v.2
    let i7 := _setup_reader ev.1
    (finishTilesUrl i7, ev.2)

/-- Models `GranuleTilingInfo(...)` construction including `__post_init__`
(tiling.py lines 90-114).  The arguments are the dataclass's `init=True`
fields; the event list records the external opener calls made during
construction. -/
def mkGranuleTilingInfo (openers : Openers) (collection_concept_id : String)
    (granule_metadata : Option GranuleMetadata) (num_granules : Option Nat)
    (collection_file_format : Option String) (access_type : String)
    (data_center_short_name : Option String) (error_message : Option String)
    (tiling_compatible : Bool) (incompatible_reason : Option IncompatibilityReason) :
    Except PyErr GranuleTilingInfo × List Event :=
  let info0 : GranuleTilingInfo :=
    { collection_concept_id := collection_concept_id
    , granule_metadata := granule_metadata
    , num_granules := num_granules
    , collection_file_format := collection_file_format
    , access_type := access_type
    , data_center_short_name := data_center_short_name
    , error_message := error_message
    , tiling_compatible := tiling_compatible
    , incompatible_reason := incompatible_reason }
  match granule_metadata with
  | none => (finishTilesUrl info0, [])
  | some g => post_init_with_granule openers info0 g

/-- Models `cli._minimal_ginfo` (cli.py lines 57-62): a `GranuleTilingInfo` built
from only the collection id, an error message and an optional reason.  With
no granule metadata, `__post_init__` extracts nothing and the backend stays
unset, so the tiles-URL step is a no-op and construction cannot raise. -/
def _minimal_ginfo (collection_id : String) (error_message : String)
    (incompatible_reason : Option IncompatibilityReason) : GranuleTilingInfo :=
  { collection_concept_id := collection_id
  , error_message := some error_message
  , incompatible_reason := incompatible_reason }

/-- Models `test_tiling` (tiling.py lines 319-368): exactly one `tile` call against
the external backend; success sets `tiling_compatible` and clears the reason
and error; any exception records `TILE_GENERATION_FAILED` with the
exception's message, and the method returns normally either way. -/
def test_tiling (info : GranuleTilingInfo) (outcome : TileOutcome) :
    GranuleTilingInfo × Bool × List Event :=
  match outcome with
  | .ok =>
      ({ info with
           tiling_compatible := true
         , incompatible_reason := none
         , error_message := none }, true, [.tileCall])
  | .raises m =>
      ({ info with
           tiling_compatible := false
         , error_message := some m
         , incompatible_reason := some .TILE_GENERATION_FAILED }, false, [.tileCall])

/-- The probe step of one in-process unit (cli.py lines 103-104):
`test_tiling` runs only when a tiles URL was generated. -/
def probeStep (info : GranuleTilingInfo) (outcome : TileOutcome) :
    GranuleTilingInfo × List Event :=
  if info.tiles_url.isSome then
    let r := test_tiling info outcome
    (r.1, r.2.2)
  else (info, [])

/-! ### metadata.py -/

/-- Models `metadata.extract_file_format_from_granule_metadata` (lines 23-57): the
`umm.DataGranule.ArchiveAndDistributionInformation[...].Format` traversal —
the traversed value is carried directly by the granule model. -/
def extract_file_format_from_granule_metadata (g : GranuleMetadata) : Option String :=
  g.archive_format

/-- Models `metadata.get_data_url` (lines 60-91): among the `RelatedUrls` of type
`"GET DATA"`, a single entry's URL, or with several entries the first whose
subtype is `"DIRECT DOWNLOAD"`, `"VIRTUAL COLLECTION"` or absent; a falsy
(empty or absent) URL yields `None`. -/
def get_data_url (g : GranuleMetadata) : Option String :=
  let data_urls := g.related_urls.filter (fun u => u.urlType = some "GET DATA")
  let url : Option String :=
    if data_urls.length = 1 then
      match data_urls with
      | u :: _ => u.url
      | [] => none
    else if data_urls.length > 1 then
      match data_urls.find? (fun u =>
          u.subtype = some "DIRECT DOWNLOAD" || u.subtype = some "VIRTUAL COLLECTION" ||
          u.subtype = none) with
      | some u => u.url
      | none => none
    else none
  if pyTruthyStr url then url else none

/-- Models `metadata.extract_data_variables` (lines 94-122): routes to the opener by
format, returning `(backend, variables)` or `(None, None)` on an opener
exception, with the opener call recorded. -/
def extract_data_variables (openers : Openers) (data_url : String)
    (file_format : Option String) : (Option String × Option (List String)) × List Event :=
  if isCogRoute file_format then
    match openers.open_rasterio_dataset data_url with
    | .opened vars => ((some "rasterio", some vars), [.openRasterioCall data_url])
    | .raises _ => ((none, none), [.openRasterioCall data_url])
  else
    match openers.open_xarray_dataset data_url with
    | .opened vars => ((some "xarray", some vars), [.openXarrayCall data_url])
    | .raises _ => ((none, none), [.openXarrayCall data_url])

/-- Models `metadata._validate_granule_format` (lines 125-146). -/
def _validate_granule_format (granule_format : Option String)
    (granule_extension : String) : Bool × String :=
  match granule_format with
  | some f => (is_supported_format f, "Format " ++ f ++ " is not supported")
  | none =>
      (is_supported_extension granule_extension,
       "Extension " ++ granule_extension ++ " is not supported")

/-- The `init=True` parameter names of the `GranuleTilingInfo` dataclass
constructor (tiling.py lines 46-88; the `field(init=False)` fields are not
constructor parameters). -/
def granule_tiling_info_init_params : List String :=
  ["collection_concept_id", "granule_metadata", "num_granules", "collection_file_format",
   "access_type", "data_center_short_name", "error_message", "tiling_compatible",
   "incompatible_reason"]

/-- The keyword names `metadata._create_unsupported_granule_info` passes to
`GranuleTilingInfo(...)` (metadata.py lines 170-176).  `concept_id`,
`data_url`, `format` and `extension` are `init=False` fields, so the call
raises `TypeError`. -/
def create_unsupported_granule_info_kwargs : List String :=
  ["collection_concept_id", "concept_id", "data_url", "format", "extension"]

/-- The keyword names `metadata._create_supported_granule_info` passes to
`GranuleTilingInfo(...)` (metadata.py lines 221-232); most are `init=False`
fields (and `data_centers` is not a field at all), so the call raises
`TypeError`. -/
def create_supported_granule_info_kwargs : List String :=
  ["collection_concept_id", "concept_id", "data_centers", "temporal_extent",
   "data_variables", "backend", "data_url", "format", "extension", "error_message"]

/-- Models `metadata._create_unsupported_granule_info` (lines 149-176): the record
the call is meant to build, behind the keyword check of the actual
constructor call. -/
def _create_unsupported_granule_info (g : GranuleMetadata) (collection_concept_id : String)
    (granule_data_url : String) (granule_format : Option String)
    (granule_extension : String) : Except PyErr GranuleTilingInfo :=
  pyCallKw granule_tiling_info_init_params create_unsupported_granule_info_kwargs
    { collection_concept_id := collection_concept_id
    , concept_id := some (g.granule_ur.getD "Unknown")
    , data_url := some granule_data_url
    , format := granule_format
    , extension := some granule_extension }

/-- Models `metadata._create_supported_granule_info` (lines 179-232): opens the file
to enumerate variables (recording the opener call), then attempts the
constructor call behind its keyword check. -/
def _create_supported_granule_info (openers : Openers) (g : GranuleMetadata)
    (collection_concept_id : String) (granule_data_url : String)
    (granule_format : Option String) (granule_extension : String)
    (data_centers : List String) : Except PyErr GranuleTilingInfo × List Event :=
  -- data_centers is passed as the (nonexistent) `data_centers` keyword and so
  -- never reaches a field of the record
  let r := extract_data_variables openers granule_data_url
    (pyOrStr granule_format (some granule_extension))
  let backend := r.1.1
  let data_variables := r.1.2
  let error_message : Option String :=
    if !(pyTruthyStr backend) || !(pyTruthyList data_variables) then
      some ("Could not extract data variables for granule " ++ g.granule_ur.getD "")
    else none
  (pyCallKw granule_tiling_info_init_params create_supported_granule_info_kwargs
    { collection_concept_id := collection_concept_id
    , concept_id := some (g.granule_ur.getD "Unknown")
    , temporal_extent := some (g.temporal_begin, g.temporal_end)
    , data_variables := data_variables
    , backend := backend
    , data_url := some granule_data_url
    , format := granule_format
    , extension := some granule_extension
    , error_message := error_message }, r.2)

/-- Models `metadata.extract_granule_tiling_info` (lines 235-292). -/
def extract_granule_tiling_info (openers : Openers) (g : GranuleMetadata)
    (collection_file_format : Option String) (data_centers : List String) :
    Except PyErr (Option GranuleTilingInfo) × List Event :=
  match g.collection_concept_id with
  | none => (.ok none, [])
  | some ccid =>
      match get_data_url g with
      | none => (.ok none, [])
      | some granule_data_url =>
          let granule_format :=
            pyOrStr collection_file_format (extract_file_format_from_granule_metadata g)
          let granule_extension := splitextExtension granule_data_url
          let v := _validate_granule_format granule_format granule_extension
          if v.1 then
            let r := _create_supported_granule_info openers g ccid granule_data_url
              granule_format granule_extension data_centers
            (r.1.map some, r.2)
          else
            ((_create_unsupported_granule_info g ccid granule_data_url granule_format
                granule_extension).map some, [])

/-- Models `metadata.extract_collection_file_format` (lines 295-318): the
`FileArchiveInformation` format carried by the collection model. -/
def extract_collection_file_format (c : CollectionMetadata) : Option String :=
  c.file_archive_format

/-- Models `metadata.extract_random_granule_info` (lines 343-371).  Its only
parameter is `collection`; the whole body is wrapped in a `try` whose
`except` arm returns `None`, so any exception from the extraction (including
the constructor `TypeError`s above) yields `None`. -/
def extract_random_granule_info (openers : Openers) (collection : CollectionMetadata) :
    Option GranuleTilingInfo × List Event :=
  let cff := extract_collection_file_format collection
  match collection.fetched_granule with
  | none => (none, [])
  | some g =>
      let r := extract_granule_tiling_info openers g cff collection.data_center_names
      match r.1 with
      | .ok o => (o, r.2)
      | .error _ => (none, r.2)

/-- The parameter names of `metadata.extract_random_granule_info`
(metadata.py line 343). -/
def extract_random_granule_info_params : List String := ["collection"]

/-- The keyword names both workers use to call it:
`extract_random_granule_info(collection=collection, access_type=access_type)`
(cli.py line 89 and lithops_processing.py line 138). -/
def extract_random_granule_info_call_kwargs : List String := ["collection", "access_type"]

/-! ### cli.py: the in-process worker -/

/-- Models `cli._process_single_collection` (cli.py lines 64-109) with
`print_collection_info=False`: extract a random granule's tiling info (any
exception from the call is recovered as a `FAILED_TO_EXTRACT` minimal
report), substitute `NO_GRANULE_FOUND` when nothing came back, then probe
only when a tiles URL exists, and return the report dictionary.  The event
list records the external opener/tile calls made. -/
def _process_single_collection (openers : Openers) (idx : Nat)
    (collection : CollectionMetadata) (access_type : String) (tileOut : TileOutcome) :
    ReportDict × List Event :=
  let collection_concept_id := collection.concept_id.getD ""
  match pyCallKw extract_random_granule_info_params extract_random_granule_info_call_kwargs
      (extract_random_granule_info openers collection) with
  | .error e =>
      ((_minimal_ginfo collection_concept_id e.message
          (some .FAILED_TO_EXTRACT)).to_report_dict, [])
  | .ok r =>
      match r.1 with
      | none =>
          ((_minimal_ginfo collection_concept_id
              ("No granule info returned for " ++ collection_concept_id)
              (some .NO_GRANULE_FOUND)).to_report_dict, r.2)
      | some ginfo =>
          let p := probeStep ginfo tileOut
          (p.1.to_report_dict, r.2 ++ p.2)

/-! ### lithops_processing.py: the distributed worker and the result store -/

/-- Keys written / deleted against the S3 result store. -/
inductive S3Op where
  | putObject (key : String)
  | deleteObject (key : String)
deriving DecidableEq, Repr

inductive S3PutOutcome where
  | ok
  | fails (msg : String)
deriving DecidableEq, Repr

inductive S3DeleteOutcome where
  | ok
  | fails (msg : String)
deriving DecidableEq, Repr

/-- The status dictionary `process_collection_to_s3` returns. -/
structure ProcessStatus where
  collection_concept_id : String
  status : String
  s3_key : Option String
  error : Option String
deriving DecidableEq, Repr

/-- The granule-extraction step of `process_collection_to_s3`
(lithops_processing.py lines 136-152).  The `except` arm (lines 139-145)
builds a `GranuleTilingInfo` whose reason is
`IncompatibilityReason.FAILED_TO_EXTRACT_URL`; the enum has no member of that
name, so the attribute lookup itself raises `AttributeError`, which — being
inside the `except` block — propagates out of `process_collection_to_s3`. -/
def lithops_extract_step (openers : Openers) (concept_id : String)
    (collection : CollectionMetadata) :
    Except PyErr GranuleTilingInfo × List Event :=
  match pyCallKw extract_random_granule_info_params extract_random_granule_info_call_kwargs
      (extract_random_granule_info openers collection) with
  | .error e =>
      (match IncompatibilityReason.memberNamed "FAILED_TO_EXTRACT_URL" with
       | some r => .ok (_minimal_ginfo concept_id e.message (some r))
       | none =>
           .error (.attributeError
             "type object IncompatibilityReason has no attribute FAILED_TO_EXTRACT_URL"), [])
  | .ok r =>
      (match r.1 with
       | none => .ok (_minimal_ginfo concept_id "No granule info returned"
                        (some .NO_GRANULE_FOUND))
       | some ginfo => .ok ginfo, r.2)

/-- The store step of `process_collection_to_s3` (lithops_processing.py
lines 158-197): one terminal `result.json` put under a key whose path
segments encode the tiling status and the reason value, then a delete of the
pending marker whose failure is only logged (the returned status stays
`completed`); a failed put returns a `failed` status with no key. -/
def putResultStep (bucket pfx concept_id : String) (ginfo : GranuleTilingInfo)
    (putOut : S3PutOutcome) (delOut : S3DeleteOutcome) : ProcessStatus × List S3Op :=
  let tiling_status := if ginfo.tiling_compatible then "true" else "false"
  let incompatibility_reason :=
    match ginfo.incompatible_reason with
    | some r => r.value
    | none => "none"
  let key := pfx ++ "/processed/" ++ concept_id ++ "/status=" ++ tiling_status ++
             "/reason=" ++ incompatibility_reason ++ "/result.json"
  match putOut with
  | .ok =>
      let unprocessed_key := pfx ++ "/unprocessed/" ++ concept_id ++ "/.marker"
      ({ collection_concept_id := concept_id, status := "completed"
       , s3_key := some key, error := none },
       [S3Op.putObject key, S3Op.deleteObject unprocessed_key])
  | .fails m =>
      ({ collection_concept_id := concept_id, status := "failed", s3_key := none
       , error := some ("Error writing results to S3 for " ++ concept_id ++ ": " ++ m) },
       [S3Op.putObject key])

/-- Outcome of the collection fetch at the top of
`process_collection_to_s3` (lines 116-134). -/
inductive FetchOutcome where
  | found (c : CollectionMetadata)
  | notFound
  | raises (msg : String)

/-- Models `process_collection_to_s3` (lithops_processing.py lines 85-197): fetch
the collection (fetch problems return a `failed` status dict), extract
granule info, probe when a tiles URL exists, and store the result.  An
uncaught exception (`Except.error`) aborts the function. -/
def process_collection_to_s3 (openers : Openers) (fetch : FetchOutcome)
    (concept_id bucket pfx : String) (tileOut : TileOutcome)
    (putOut : S3PutOutcome) (delOut : S3DeleteOutcome) :
    Except PyErr ProcessStatus × List Event × List S3Op :=
  match fetch with
  | .notFound =>
      (.ok { collection_concept_id := concept_id, status := "failed", s3_key := none
           , error := some ("Collection " ++ concept_id ++ " not found") }, [], [])
  | .raises m =>
      (.ok { collection_concept_id := concept_id, status := "failed", s3_key := none
           , error := some ("Error fetching collection " ++ concept_id ++ ": " ++ m) }, [], [])
  | .found collection =>
      match lithops_extract_step openers concept_id collection with
      | (.error e, ev) => (.error e, ev, [])
      | (.ok ginfo, ev) =>
          let p :=
            if ginfo.tiles_url.isSome then
              let r := test_tiling ginfo tileOut
              (r.1, r.2.2)
            else (ginfo, [])
          let s := putResultStep bucket pfx concept_id p.1 putOut delOut
          (.ok s.1, ev ++ p.2, s.2)

/-! ### The work partitioner and the batch loop -/

structure PageInfo where
  page_num : Nat
  page_size : Nat
deriving DecidableEq, Repr

/-- The page plan of `create_collection_directories`
(lithops_processing.py lines 227-233): `(total + page_size - 1) // page_size`
pages, each descriptor `{page_num, page_size}` carrying the constant
`page_size`.  (`page_size = 0` raises `ZeroDivisionError` in Python; Lean's
division by zero yields an empty plan, and the theorems assume
`0 < page_size`.) -/
def createPagePlan (total_to_process page_size : Nat) : List PageInfo :=
  let num_pages := (total_to_process + page_size - 1) / page_size
  (List.range num_pages).map (fun i => { page_num := i + 1, page_size := page_size })

/-- Per-unit outcome of `async_result.get(timeout=...)` in
`process_collections_parallel` (cli.py lines 236-249). -/
inductive AsyncOutcome where
  | completed (r : ReportDict)
  | timedOut
  | raises (msg : String)
deriving DecidableEq, Repr

/-- One iteration of the result-collection loop (cli.py lines 236-249):
the collected report, a `TIMEOUT` minimal report, or an unclassified minimal
report. -/
def unit_record (timeout_per_collection i : Nat) (collection_id : String) :
    AsyncOutcome → ReportDict
  | .completed r => r
  | .timedOut =>
      (_minimal_ginfo collection_id
        ("Collection " ++ Nat.repr i ++ " (" ++ collection_id ++ ") timed out after " ++
         Nat.repr timeout_per_collection ++ "s")
        (some .TIMEOUT)).to_report_dict
  | .raises m =>
      (_minimal_ginfo collection_id
        ("Error getting result for collection " ++ Nat.repr i ++ " (" ++ collection_id ++
         "): " ++ m)
        none).to_report_dict

/-- The result-collection loop of `process_collections_parallel` (cli.py
lines 236-249): each of its three arms appends exactly one record to
`results`, and the `PoolTimeoutError` arm additionally appends the
collection id to `timeouts`. -/
def collect_batch_results (timeout_per_collection : Nat)
    (units : List (String × AsyncOutcome)) : List ReportDict × List String :=
  (units.enum.map (fun p => unit_record timeout_per_collection p.1 p.2.1 p.2.2),
   units.filterMap (fun p => match p.2 with | .timedOut => some p.1 | _ => none))

/-- The per-batch accounting of cli.py lines 254-263:
`successful_results = [r for r in results if r is not None]` — every arm of
the loop appends a dict, so this keeps everything, including the timeout and
failure substitutes — and the printed "failed" count is computed by
subtraction.  Returns `(len(successful_results), len(timeouts), failed)`. -/
def batch_counts (timeout_per_collection : Nat)
    (units : List (String × AsyncOutcome)) : Nat × Nat × Int :=
  let r := collect_batch_results timeout_per_collection units
  let successful := r.1.length
  let touts := r.2.length
  (successful, touts, (units.length : Int) - successful - touts)

/-! ### api.py: the random-offset draw -/

/-- Models `api.fetch_random_granule_metadata` line 118: the set of offsets
`random.randint(0, min(total_num_granules, int(1e6)))` can draw.  Python's
`random.randint(a, b)` samples the closed interval `[a, b]`, endpoints
included. -/
def randomOffsetSupport (total_num_granules : ℕ) : Finset ℕ :=
  Finset.Icc 0 (min total_num_granules 1000000)

/-! ### Result projections and concrete fixtures -/

/-- The incompatibility reason of a (possibly failed) construction. -/
def reasonOf : Except PyErr GranuleTilingInfo → Option IncompatibilityReason
  | .ok i => i.incompatible_reason
  | .error _ => none

/-- The tiles URL of a (possibly failed) construction. -/
def tilesUrlOf : Except PyErr GranuleTilingInfo → Option String
  | .ok i => i.tiles_url
  | .error _ => none

/-- The chosen variable of a (possibly failed) construction. -/
def variableNameOf : Except PyErr GranuleTilingInfo → Option String
  | .ok i => i.variableName
  | .error _ => none

/-- Openers that always fail; used where no opener call is expected. -/
def stubOpeners : Openers :=
  { open_rasterio_dataset := fun _ => .raises "stub"
  , open_xarray_dataset := fun _ => .raises "stub" }

/-- A granule with a resolvable direct s3 URL and no granule-level format. -/
def testGranuleHdfEos2 : GranuleMetadata :=
  { concept_id := some "G2000000000-TEST"
  , collection_concept_id := some "C2000000000-TEST"
  , provider_id := some "TEST"
  , granule_ur := some "TestGranule.he2"
  , related_urls :=
      [{ urlType := some "GET DATA", subtype := none
       , url := some "s3://test-bucket/TestGranule.he2" }]
  , direct_links := ["s3://test-bucket/TestGranule.he2"]
  , external_links := ["https://example.com/TestGranule.he2"]
  , archive_format := none
  , temporal_begin := some "2020-01-01T00:00:00Z"
  , temporal_end := some "2020-12-31T23:59:59Z" }

/-- A collection declaring format `"HDF-EOS2"` whose fetched granule yields a
data URL (the C2 scenario of the spec). -/
def testCollectionHdfEos2 : CollectionMetadata :=
  { concept_id := some "C2000000000-TEST"
  , file_archive_format := some "HDF-EOS2"
  , data_center_names := ["TEST"]
  , fetched_granule := some testGranuleHdfEos2 }

/-- A granule resolving to a `.tif` URL (the C1 scenario of the spec). -/
def testGranuleCog : GranuleMetadata :=
  { concept_id := some "G1000000000-TEST"
  , collection_concept_id := some "C1000000000-TEST"
  , provider_id := some "TEST"
  , granule_ur := some "TestGranule.tif"
  , related_urls :=
      [{ urlType := some "GET DATA", subtype := none
       , url := some "s3://test-bucket/TestGranule.tif" }]
  , direct_links := ["s3://test-bucket/TestGranule.tif"]
  , external_links := ["https://example.com/TestGranule.tif"]
  , archive_format := none
  , temporal_begin := some "2020-01-01T00:00:00Z"
  , temporal_end := some "2020-12-31T23:59:59Z" }

/-- Openers whose raster opener enumerates the bands of the C1 scenario. -/
def cogOpeners : Openers :=
  { open_rasterio_dataset := fun _ => .opened ["Red", "Green", "Blue"]
  , open_xarray_dataset := fun _ => .raises "unused" }

/-- A one-unit batch whose only unit times out. -/
def timeoutBatch : List (String × AsyncOutcome) :=
  [("C3000000000-TEST", AsyncOutcome.timedOut)]

/-- The record `__post_init__` produces for the HDF-EOS2 scenario:
classification stops at the unsupported format, before any opener call. -/
def hdfeos2ExpectedInfo : GranuleTilingInfo :=
  { collection_concept_id := "C2000000000-TEST"
  , granule_metadata := some testGranuleHdfEos2
  , collection_file_format := some "HDF-EOS2"
  , access_type := "direct"
  , concept_id := some "G2000000000-TEST"
  , data_url := some "s3://test-bucket/TestGranule.he2"
  , temporal_extent := some (some "2020-01-01T00:00:00Z", some "2020-12-31T23:59:59Z")
  , format := some "HDF-EOS2"
  , extension := some "he2"
  , error_message := some "Format HDF-EOS2 is not supported"
  , incompatible_reason := some IncompatibilityReason.UNSUPPORTED_FORMAT }

/-- The classification-phase failure reasons (the spec's first six taxonomy
members, as far as they exist in the enum; `FailedToExtractUrl` has no
member, so five remain). -/
def classificationFailureReasons : List IncompatibilityReason :=
  [.UNSUPPORTED_FORMAT, .CANT_OPEN_FILE, .CANT_EXTRACT_VARIABLES, .NO_GRANULE_FOUND,
   .FAILED_TO_EXTRACT]

end TCC

namespace TCC

/-! ## Field-preservation lemmas for the `__post_init__` stages -/

@[simp] theorem _extract_concept_id_tiles_url (i : GranuleTilingInfo) (g : GranuleMetadata) :
    (_extract_concept_id i g).tiles_url = i.tiles_url := rfl

@[simp] theorem _extract_concept_id_backend (i : GranuleTilingInfo) (g : GranuleMetadata) :
    (_extract_concept_id i g).backend = i.backend := rfl

@[simp] theorem _extract_concept_id_data_variables (i : GranuleTilingInfo) (g : GranuleMetadata) :
    (_extract_concept_id i g).data_variables = i.data_variables := rfl

@[simp] theorem _extract_concept_id_data_url (i : GranuleTilingInfo) (g : GranuleMetadata) :
    (_extract_concept_id i g).data_url = i.data_url := rfl

@[simp] theorem _extract_concept_id_reason (i : GranuleTilingInfo) (g : GranuleMetadata) :
    (_extract_concept_id i g).incompatible_reason = i.incompatible_reason := rfl

@[simp] theorem _extract_data_url_tiles_url (i : GranuleTilingInfo) (g : GranuleMetadata) :
    (_extract_data_url i g).tiles_url = i.tiles_url := by
  unfold _extract_data_url
  repeat' split
  all_goals rfl

@[simp] theorem _extract_data_url_backend (i : GranuleTilingInfo) (g : GranuleMetadata) :
    (_extract_data_url i g).backend = i.backend := by
  unfold _extract_data_url
  repeat' split
  all_goals rfl

@[simp] theorem _extract_data_url_data_variables (i : GranuleTilingInfo) (g : GranuleMetadata) :
    (_extract_data_url i g).data_variables = i.data_variables := by
  unfold _extract_data_url
  repeat' split
  all_goals rfl

/-- When no URL was resolved before and one is resolved now, the reason is
untouched (the failure arm is the only one that writes it). -/
theorem _extract_data_url_reason_of_some (i : GranuleTilingInfo) (g : GranuleMetadata)
    (h0 : i.data_url = none) (h : ((_extract_data_url i g).data_url).isSome) :
    (_extract_data_url i g).incompatible_reason = i.incompatible_reason := by
  unfold _extract_data_url at *
  repeat' split at h
  all_goals simp_all

@[simp] theorem _extract_temporal_extent_tiles_url (i : GranuleTilingInfo) (g : GranuleMetadata) :
    (_extract_temporal_extent i g).tiles_url = i.tiles_url := rfl

@[simp] theorem _extract_temporal_extent_backend (i : GranuleTilingInfo) (g : GranuleMetadata) :
    (_extract_temporal_extent i g).backend = i.backend := rfl

@[simp] theorem _extract_temporal_extent_data_variables (i : GranuleTilingInfo)
    (g : GranuleMetadata) :
    (_extract_temporal_extent i g).data_variables = i.data_variables := rfl

@[simp] theorem _extract_temporal_extent_data_url (i : GranuleTilingInfo) (g : GranuleMetadata) :
    (_extract_temporal_extent i g).data_url = i.data_url := rfl

@[simp] theorem _extract_temporal_extent_reason (i : GranuleTilingInfo) (g : GranuleMetadata) :
    (_extract_temporal_extent i g).incompatible_reason = i.incompatible_reason := rfl

@[simp] theorem _extract_format_and_extension_tiles_url (i : GranuleTilingInfo)
    (g : GranuleMetadata) :
    (_extract_format_and_extension i g).tiles_url = i.tiles_url := by
  unfold _extract_format_and_extension
  repeat' split
  all_goals rfl

@[simp] theorem _extract_format_and_extension_backend (i : GranuleTilingInfo)
    (g : GranuleMetadata) :
    (_extract_format_and_extension i g).backend = i.backend := by
  unfold _extract_format_and_extension
  repeat' split
  all_goals rfl

@[simp] theorem _extract_format_and_extension_data_variables (i : GranuleTilingInfo)
    (g : GranuleMetadata) :
    (_extract_format_and_extension i g).data_variables = i.data_variables := by
  unfold _extract_format_and_extension
  repeat' split
  all_goals rfl

@[simp] theorem _extract_format_and_extension_data_url (i : GranuleTilingInfo)
    (g : GranuleMetadata) :
    (_extract_format_and_extension i g).data_url = i.data_url := by
  unfold _extract_format_and_extension
  repeat' split
  all_goals rfl

@[simp] theorem _extract_format_and_extension_reason (i : GranuleTilingInfo)
    (g : GranuleMetadata) :
    (_extract_format_and_extension i g).incompatible_reason = i.incompatible_reason := by
  unfold _extract_format_and_extension
  repeat' split
  all_goals rfl

@[simp] theorem _validate_format_snd_tiles_url (i : GranuleTilingInfo) :
    ((_validate_format i).2).tiles_url = i.tiles_url := by
  unfold _validate_format
  repeat' split
  all_goals rfl

@[simp] theorem _validate_format_snd_backend (i : GranuleTilingInfo) :
    ((_validate_format i).2).backend = i.backend := by
  unfold _validate_format
  repeat' split
  all_goals rfl

@[simp] theorem _validate_format_snd_data_variables (i : GranuleTilingInfo) :
    ((_validate_format i).2).data_variables = i.data_variables := by
  unfold _validate_format
  repeat' split
  all_goals rfl

/-- A passing validation leaves the record untouched. -/
theorem _validate_format_true_eq (i : GranuleTilingInfo)
    (h : (_validate_format i).1 = true) : (_validate_format i).2 = i := by
  unfold _validate_format at *
  repeat' split at h
  all_goals simp_all

/-- A passing validation requires a resolved data URL. -/
theorem _validate_format_true_url (i : GranuleTilingInfo)
    (h : (_validate_format i).1 = true) : i.data_url.isSome := by
  unfold _validate_format at h
  repeat' split at h
  all_goals simp_all

@[simp] theorem _extract_dv_tiles_url (o : Openers) (i : GranuleTilingInfo) :
    ((_extract_data_variables_and_backend o i).1).tiles_url = i.tiles_url := by
  unfold _extract_data_variables_and_backend
  repeat' split
  all_goals rfl

/-- With no variables recorded before the call, a truthy variable list
afterwards means the happy arm ran: the reason is untouched. -/
theorem _extract_dv_reason_of_vars (o : Openers) (i : GranuleTilingInfo)
    (h0 : i.data_variables = none)
    (h : pyTruthyList ((_extract_data_variables_and_backend o i).1).data_variables = true) :
    ((_extract_data_variables_and_backend o i).1).incompatible_reason =
      i.incompatible_reason := by
  unfold _extract_data_variables_and_backend at *
  repeat' split at h
  all_goals simp_all [pyTruthyList]

@[simp] theorem _setup_reader_tiles_url (i : GranuleTilingInfo) :
    (_setup_reader i).tiles_url = i.tiles_url := by
  unfold _setup_reader
  repeat' split
  all_goals rfl

@[simp] theorem _setup_reader_backend (i : GranuleTilingInfo) :
    (_setup_reader i).backend = i.backend := by
  unfold _setup_reader
  repeat' split
  all_goals rfl

@[simp] theorem _setup_reader_data_variables (i : GranuleTilingInfo) :
    (_setup_reader i).data_variables = i.data_variables := by
  unfold _setup_reader
  repeat' split
  all_goals rfl

@[simp] theorem _setup_reader_reason (i : GranuleTilingInfo) :
    (_setup_reader i).incompatible_reason = i.incompatible_reason := by
  unfold _setup_reader
  repeat' split
  all_goals rfl

/-- The construction invariant behind C6: a `__post_init__` that returns
normally, starting from a record with no URL, variables, reason or tiles URL
(as every freshly constructed record has, since those fields are
`init=False`), either set no tiles URL, or completed classification cleanly:
no incompatibility reason, a truthy backend and a truthy variable list. -/
theorem post_init_classified_invariant (openers : Openers) (i0 : GranuleTilingInfo)
    (g : GranuleMetadata)
    (h0url : i0.data_url = none) (h0vars : i0.data_variables = none)
    (h0reason : i0.incompatible_reason = none) (h0tiles : i0.tiles_url = none)
    (info : GranuleTilingInfo) (ev : List Event)
    (h : post_init_with_granule openers i0 g = (.ok info, ev)) :
    info.tiles_url = none ∨
      (info.incompatible_reason = none ∧ pyTruthyStr info.backend = true ∧
       pyTruthyList info.data_variables = true) := by
  simp only [post_init_with_granule] at h
  split at h
  case isTrue hval =>
    -- validation failed (or returned early): classification stopped with the
    -- validator's record, whose tiles URL is still unset
    injection h with ha hb
    injection ha with ha
    subst ha
    left
    simp [h0tiles]
  case isFalse hval =>
    have hfst : (_validate_format (_extract_format_and_extension (_extract_temporal_extent
        (_extract_data_url (_extract_concept_id i0 g) g) g) g)).1 = true := by
      simpa using hval
    simp only [finishTilesUrl] at h
    split at h
    case isTrue hcond =>
      split at h
      case _ u hgen =>
        injection h with ha hb
        injection ha with ha
        subst ha
        cases u with
        | none => left; simp
        | some s =>
            right
            rw [Bool.and_eq_true] at hcond
            refine ⟨?_, ?_, ?_⟩
            · -- the reason is still the initial `none`: the URL-extraction
              -- succeeded (validation needs a URL) and the opener arm that
              -- ran is the one with a truthy variable list
              have hvars0 : ((_validate_format (_extract_format_and_extension
                  (_extract_temporal_extent (_extract_data_url (_extract_concept_id i0 g) g) g)
                  g)).2).data_variables = none := by
                simp [h0vars]
              have htruthy : pyTruthyList ((_extract_data_variables_and_backend openers
                  ((_validate_format (_extract_format_and_extension (_extract_temporal_extent
                  (_extract_data_url (_extract_concept_id i0 g) g) g) g)).2)).1).data_variables
                  = true := by
                have := hcond.2
                simpa using this
              have hdv := _extract_dv_reason_of_vars openers _ hvars0 htruthy
              have hurl : ((_extract_data_url (_extract_concept_id i0 g) g).data_url).isSome := by
                have := _validate_format_true_url _ hfst
                simpa using this
              have hreas := _extract_data_url_reason_of_some (_extract_concept_id i0 g) g
                (by simp [h0url]) hurl
              simp only [GranuleTilingInfo.incompatible_reason, _setup_reader_reason]
              rw [hdv, _validate_format_true_eq _ hfst]
              simp only [_extract_format_and_extension_reason, _extract_temporal_extent_reason]
              rw [hreas]
              simp [h0reason]
            · have := hcond.1
              simpa using this
            · have := hcond.2
              simpa using this
      case _ e hgen =>
        injection h with ha hb
        exact Except.noConfusion ha
    case isFalse hcond =>
      injection h with ha hb
      injection ha with ha
      subst ha
      left
      rw [_setup_reader_tiles_url, _extract_dv_tiles_url, _validate_format_snd_tiles_url]
      simp [h0tiles]

end TCC

namespace TCC

/-! ## Claim theorems -/

/-- C1: the claim says the classifier never raises past its boundary, that
the outcome enumeration has a member for each taxonomy name including
`FailedToExtractUrl`, and that `process_collection_to_s3`'s classification-
error branch assigns that member and returns a status record.  In the code
the enum has no `FAILED_TO_EXTRACT_URL` member, so the branch's attribute
lookup raises `AttributeError`, which propagates out of
`process_collection_to_s3` for every collection whose extraction raises —
and the extraction call always raises, because it passes the `access_type`
keyword that `extract_random_granule_info` does not accept. -/
theorem C1_error_branch_raises_attribute_error :
    IncompatibilityReason.memberNamed "FAILED_TO_EXTRACT_URL" = none ∧
    ∀ openers concept_id collection bucket pfx tileOut putOut delOut,
      process_collection_to_s3 openers (FetchOutcome.found collection) concept_id bucket pfx
          tileOut putOut delOut =
        (Except.error (PyErr.attributeError
           "type object IncompatibilityReason has no attribute FAILED_TO_EXTRACT_URL"),
         [], []) := by
  refine ⟨rfl, ?_⟩
  intro openers concept_id collection bucket pfx tileOut putOut delOut
  rfl

/-- C10: `_process_single_collection` is total and, because the worker passes
the `access_type` keyword that `extract_random_granule_info` does not accept,
the call always raises `TypeError`; the worker catches it and returns a
report carrying the collection's concept id and reason
`failed_to_extract`, with no opener or probe calls. -/
theorem C10_worker_total_always_failed_to_extract :
    ∀ openers idx collection access_type tileOut,
      _process_single_collection openers idx collection access_type tileOut =
        ((_minimal_ginfo (collection.concept_id.getD "")
            "got an unexpected keyword argument"
            (some IncompatibilityReason.FAILED_TO_EXTRACT)).to_report_dict, []) := by
  intro openers idx collection access_type tileOut
  rfl

/-- C5: the claim says the random offset always satisfies
`0 ≤ offset < min(count, 10^6)`.  The code draws with
`random.randint(0, min(count, 10^6))`, whose interval is closed, so for a
collection with one granule the offset `min(1, 10^6) = 1` is attainable —
refuting the strict upper bound. -/
theorem C5_offset_closed_interval :
    min 1 1000000 ∈ randomOffsetSupport 1 ∧
    ¬ (∀ k ∈ randomOffsetSupport 1, k < min 1 1000000) := by
  constructor
  · simp [randomOffsetSupport]
  · intro hall
    have h := hall (min 1 1000000) (by simp [randomOffsetSupport])
    omega

/-- C7: `test_tiling` makes exactly one tile call and returns normally in
both cases; success sets `tiling_compatible` and clears the reason and
error message; a backend exception records `TILE_GENERATION_FAILED` with the
exception's message as the stored detail, with no retry. -/
theorem C7_probe_one_call_success_or_failure :
    ∀ info : GranuleTilingInfo,
      (test_tiling info TileOutcome.ok =
        ({ info with tiling_compatible := true, incompatible_reason := none,
                     error_message := none }, true, [Event.tileCall])) ∧
      (∀ m, test_tiling info (TileOutcome.raises m) =
        ({ info with tiling_compatible := false, error_message := some m,
                     incompatible_reason := some IncompatibilityReason.TILE_GENERATION_FAILED },
         false, [Event.tileCall])) := by
  intro info
  exact ⟨rfl, fun m => rfl⟩

/-- C9: with a successful put, the store step of `process_collection_to_s3`
writes exactly one terminal object under a key encoding the status and the
reason value as path segments, deletes the pending marker, and reports
completion whether or not the delete succeeds. -/
theorem C9_put_result_is_durable_and_delete_tolerant :
    (∀ bucket pfx concept_id ginfo delOut,
      putResultStep bucket pfx concept_id ginfo S3PutOutcome.ok delOut =
        ({ collection_concept_id := concept_id
         , status := "completed"
         , s3_key := some (pfx ++ "/processed/" ++ concept_id ++ "/status=" ++
             (if ginfo.tiling_compatible then "true" else "false") ++ "/reason=" ++
             (match ginfo.incompatible_reason with
              | some r => r.value
              | none => "none") ++ "/result.json")
         , error := none },
         [S3Op.putObject (pfx ++ "/processed/" ++ concept_id ++ "/status=" ++
             (if ginfo.tiling_compatible then "true" else "false") ++ "/reason=" ++
             (match ginfo.incompatible_reason with
              | some r => r.value
              | none => "none") ++ "/result.json"),
          S3Op.deleteObject (pfx ++ "/unprocessed/" ++ concept_id ++ "/.marker")])) ∧
    (∀ bucket pfx concept_id ginfo delOut,
      ((putResultStep bucket pfx concept_id ginfo S3PutOutcome.ok delOut).2.filter
         (fun op => match op with | S3Op.putObject _ => true | _ => false)).length = 1) := by
  constructor
  · intro bucket pfx concept_id ginfo delOut
    rfl
  · intro bucket pfx concept_id ginfo delOut
    rfl

/-- C3: every submitted collection yields exactly one record, and a
timed-out unit's record carries reason `timeout` — but the accounting is
not partitioned: the timeout substitute record is also kept in
`successful_results`, so for a one-unit batch that times out the printed
counts are 1 successful, 1 timed out and −1 failed, and
`total == success + timeouts` fails. -/
theorem C3_timeout_record_double_counted :
    (∀ tpc units, (collect_batch_results tpc units).1.length = units.length) ∧
    (collect_batch_results 30 timeoutBatch).1.map ReportDict.incompatible_reason =
      [some "timeout"] ∧
    batch_counts 30 timeoutBatch = (1, 1, -1) ∧
    ¬ ((timeoutBatch.length : Int) =
        ((batch_counts 30 timeoutBatch).1 : Int) + ((batch_counts 30 timeoutBatch).2.1 : Int)) := by
  refine ⟨?_, by rfl, by rfl, by decide⟩
  intro tpc units
  simp [collect_batch_results]

/-- C4 counterexample: the plan for 257 items with page size 100 does not
have page sizes 100, 100, 57 — every descriptor carries the constant page
size 100. -/
theorem C4_no_truncated_last_page :
    ¬ ((createPagePlan 257 100).map PageInfo.page_size = [100, 100, 57]) := by
  decide

/-- C4 amended: the partitioner is a pure function of the two integers
producing `(total + page_size - 1) / page_size` (ceiling-division many)
descriptors `{page_num, page_size}` with consecutive page numbers from 1 and
the constant `page_size` in every descriptor (the last page is not
truncated: for 257 and 100 the sizes are 100, 100, 100); the page count is
the ceiling of `total / page_size` (characterized below), and a total of 0
yields zero pages. -/
theorem C4_page_plan_ceiling (total_count page_size : Nat) (h : 0 < page_size) :
    (createPagePlan total_count page_size).length =
      (total_count + page_size - 1) / page_size ∧
    total_count ≤ (createPagePlan total_count page_size).length * page_size ∧
    (0 < total_count →
      ((createPagePlan total_count page_size).length - 1) * page_size < total_count) ∧
    (∀ p ∈ createPagePlan total_count page_size, p.page_size = page_size) ∧
    (createPagePlan total_count page_size).map PageInfo.page_num =
      (List.range ((total_count + page_size - 1) / page_size)).map (fun i => i + 1) ∧
    createPagePlan 0 page_size = [] ∧
    (createPagePlan 257 100).map PageInfo.page_size = [100, 100, 100] := by
  have hlen : (createPagePlan total_count page_size).length =
      (total_count + page_size - 1) / page_size := by
    simp [createPagePlan]
  have hmod := Nat.div_add_mod (total_count + page_size - 1) page_size
  have hmlt : (total_count + page_size - 1) % page_size < page_size := Nat.mod_lt _ h
  have hcomm : (total_count + page_size - 1) / page_size * page_size =
      page_size * ((total_count + page_size - 1) / page_size) :=
    Nat.mul_comm _ _
  refine ⟨hlen, ?_, ?_, ?_, ?_, ?_, by decide⟩
  · rw [hlen]
    omega
  · intro ht
    rw [hlen]
    have hq : 0 < (total_count + page_size - 1) / page_size := by
      apply Nat.div_pos <;> omega
    obtain ⟨q, hqe⟩ : ∃ q, (total_count + page_size - 1) / page_size = q + 1 :=
      ⟨(total_count + page_size - 1) / page_size - 1, by omega⟩
    rw [hqe] at hmod
    have hdist : page_size * (q + 1) = page_size * q + page_size := by ring
    have hq2 : q * page_size = page_size * q := Nat.mul_comm _ _
    rw [hqe]
    simp only [Nat.add_sub_cancel]
    omega
  · intro p hp
    simp only [createPagePlan, List.mem_map] at hp
    obtain ⟨i, _, rfl⟩ := hp
    rfl
  · simp [createPagePlan]
  · simp only [createPagePlan, Nat.zero_add, List.range_zero, List.map_nil]
    rw [Nat.div_eq_of_lt (by omega)]
    simp

/-- C4 witness: the amended partitioner theorem at total 257, page size 100. -/
theorem C4_page_plan_ceiling_witness :
    0 < 100 ∧
    ((createPagePlan 257 100).length = (257 + 100 - 1) / 100 ∧
     257 ≤ (createPagePlan 257 100).length * 100 ∧
     (0 < 257 → ((createPagePlan 257 100).length - 1) * 100 < 257) ∧
     (∀ p ∈ createPagePlan 257 100, p.page_size = 100) ∧
     (createPagePlan 257 100).map PageInfo.page_num =
       (List.range ((257 + 100 - 1) / 100)).map (fun i => i + 1) ∧
     createPagePlan 0 100 = [] ∧
     (createPagePlan 257 100).map PageInfo.page_size = [100, 100, 100]) :=
  ⟨by decide, C4_page_plan_ceiling 257 100 (by decide)⟩

/-- C2: the claim says an `"HDF-EOS2"` collection yields outcome
`UnsupportedFormat` with zero opener and probe calls.  Zero external calls
do hold, but through the worker the outcome is `failed_to_extract`: the
extraction call raises `TypeError` (unexpected `access_type` keyword) before
the format is ever examined.  The classification logic of
`GranuleTilingInfo.__post_init__` itself — the spec's evident referent —
does produce `UNSUPPORTED_FORMAT` with no opener call, no tiles URL and no
probe call on the same scenario. -/
theorem C2_hdfeos2_scenario :
    ∀ openers tileOut,
      ((_process_single_collection openers 0 testCollectionHdfEos2 "direct"
          tileOut).1.incompatible_reason = some "failed_to_extract") ∧
      (_process_single_collection openers 0 testCollectionHdfEos2 "direct" tileOut).2 = [] ∧
      reasonOf (mkGranuleTilingInfo openers "C2000000000-TEST" (some testGranuleHdfEos2)
          none (some "HDF-EOS2") "direct" none none false none).1 =
        some IncompatibilityReason.UNSUPPORTED_FORMAT ∧
      tilesUrlOf (mkGranuleTilingInfo openers "C2000000000-TEST" (some testGranuleHdfEos2)
          none (some "HDF-EOS2") "direct" none none false none).1 = none ∧
      (mkGranuleTilingInfo openers "C2000000000-TEST" (some testGranuleHdfEos2)
          none (some "HDF-EOS2") "direct" none none false none).2 = [] := by
  intro openers tileOut
  exact ⟨rfl, rfl, rfl, rfl, rfl⟩

/-- C6: an Assessment carrying one of the classification-failure outcomes
(the five of the claim's six that exist in the enum — `FailedToExtractUrl`
has no member, so no Assessment can carry it) is never probed: a
`__post_init__` construction from granule metadata that returns with such a
reason has no tiles URL, so the unit's probe guard makes no tile call; and
conversely, probing only starts when classification set a truthy backend and
a non-empty variable list and recorded no failure reason. -/
theorem C6_failed_classification_never_probed :
    ∀ openers cid g ng cff acc dcsn info ev tileOut,
      mkGranuleTilingInfo openers cid (some g) ng cff acc dcsn none false none =
        (.ok info, ev) →
      (info.incompatible_reason ∈ classificationFailureReasons.map some →
        info.tiles_url = none ∧ (probeStep info tileOut).2 = []) ∧
      (info.tiles_url.isSome →
        pyTruthyStr info.backend = true ∧ pyTruthyList info.data_variables = true ∧
        info.incompatible_reason = none) := by
  intro openers cid g ng cff acc dcsn info ev tileOut h
  simp only [mkGranuleTilingInfo] at h
  have hinv := post_init_classified_invariant openers _ g rfl rfl rfl rfl info ev h
  constructor
  · intro hr
    have htiles : info.tiles_url = none := by
      rcases hinv with ht | ⟨hre, _, _⟩
      · exact ht
      · rw [hre] at hr
        simp [classificationFailureReasons] at hr
    refine ⟨htiles, ?_⟩
    simp [probeStep, htiles]
  · intro hs
    rcases hinv with ht | ⟨hre, hb, hv⟩
    · rw [ht] at hs
      simp at hs
    · exact ⟨hb, hv, hre⟩

/-- C6 witness: the HDF-EOS2 scenario classifies to `UNSUPPORTED_FORMAT`
(one of the failure reasons), and the theorem yields that no tiles URL
exists and the probe step makes no call. -/
theorem C6_failed_classification_never_probed_witness :
    (mkGranuleTilingInfo stubOpeners "C2000000000-TEST" (some testGranuleHdfEos2) none
       (some "HDF-EOS2") "direct" none none false none = (.ok hdfeos2ExpectedInfo, [])) ∧
    hdfeos2ExpectedInfo.incompatible_reason ∈ classificationFailureReasons.map some ∧
    (hdfeos2ExpectedInfo.tiles_url = none ∧
     (probeStep hdfeos2ExpectedInfo TileOutcome.ok).2 = []) :=
  ⟨by rfl, by decide,
   (C6_failed_classification_never_probed stubOpeners "C2000000000-TEST" testGranuleHdfEos2
      none (some "HDF-EOS2") "direct" none hdfeos2ExpectedInfo [] TileOutcome.ok
      (by rfl)).1 (by decide)⟩

/-- C8 counterexample: in the C1 scenario (raster backend, fields
`["Red","Green","Blue"]`) no field is chosen at all — the constructed
record's chosen variable is `none`, not `"Red"`, even though the tile
request is built. -/
theorem C8_raster_chooses_no_field :
    variableNameOf (mkGranuleTilingInfo cogOpeners "C1000000000-TEST" (some testGranuleCog)
        none (some "COG") "direct" none none false none).1 = none ∧
    ¬ (variableNameOf (mkGranuleTilingInfo cogOpeners "C1000000000-TEST" (some testGranuleCog)
        none (some "COG") "direct" none none false none).1 = some "Red") ∧
    tilesUrlOf (mkGranuleTilingInfo cogOpeners "C1000000000-TEST" (some testGranuleCog)
        none (some "COG") "direct" none none false none).1 ≠ none := by
  refine ⟨by decide, by decide, by decide⟩

/-- C8 amended: the first-allow-listed-else-first variable rule holds for
the xarray backend only and never aborts; the rasterio backend chooses no
field (its reader options are empty) and its request is built without
consulting the temporal extent; for the xarray backend, a request is left
unset only when the temporal field was never set (`None`), while a set
temporal pair with a missing bound makes the URL builder raise `TypeError`
(the non-empty 2-tuple is truthy, so the no-temporal arm cannot run). -/
theorem C8_variable_choice_and_requests :
    (∀ vars v, vars.find? (fun x => known_variables.contains x) = some v →
       chooseXarrayVariable vars = some v) ∧
    (∀ vars : List String, vars ≠ [] →
       vars.find? (fun x => known_variables.contains x) = none →
       chooseXarrayVariable vars = vars.head?) ∧
    (∀ info : GranuleTilingInfo, info.backend = some "rasterio" →
       pyTruthyList info.data_variables = true → info.variableName = none →
       (_setup_reader info).variableName = none ∧
       (_setup_reader info).reader_options_variable = none) ∧
    (∀ (info : GranuleTilingInfo) (tx ty tz : Nat), info.backend = some "rasterio" →
       pyTruthyList info.data_variables = true →
       generate_tiles_url_for_granule info tx ty tz =
         .ok (some (TITILER_CMR_ENDPOINT ++ "/tiles/WebMercatorQuad/" ++ Nat.repr tz ++ "/" ++
           Nat.repr tx ++ "/" ++ Nat.repr ty ++ ".png?concept_id=" ++
           info.collection_concept_id ++ "&backend=" ++ "rasterio"))) ∧
    (∀ (info : GranuleTilingInfo) (tx ty tz : Nat), info.backend = some "xarray" →
       pyTruthyList info.data_variables = true →
       info.temporal_extent = none →
       generate_tiles_url_for_granule info tx ty tz = .ok none) ∧
    (∀ (info : GranuleTilingInfo) (tx ty tz : Nat) (b e : Option String),
       info.backend = some "xarray" →
       pyTruthyList info.data_variables = true →
       info.temporal_extent = some (b, e) →
       b = none ∨ e = none →
       generate_tiles_url_for_granule info tx ty tz =
         .error (.typeError "sequence item: expected str instance, NoneType found")) := by
  refine ⟨?_, ?_, ?_, ?_, ?_, ?_⟩
  · intro vars v hfind
    unfold chooseXarrayVariable
    rw [hfind]
  · intro vars hne hfind
    unfold chooseXarrayVariable
    rw [hfind]
    simp [List.length_pos.mpr hne]
  · intro info hb hv hvn
    unfold _setup_reader
    rw [hb]
    simp [pyTruthyStr, hv, hvn]
  · intro info tx ty tz hb hv
    unfold generate_tiles_url_for_granule
    rw [hb]
    simp [pyTruthyStr, hv]
  · intro info tx ty tz hb hv ht
    unfold generate_tiles_url_for_granule
    rw [hb, ht]
    simp [pyTruthyStr, hv]
  · intro info tx ty tz b e hb hv ht hbe
    unfold generate_tiles_url_for_granule
    rw [hb, ht]
    rcases hbe with rfl | rfl
    · simp [pyTruthyStr, hv, pyJoinPair]
    · cases b with
      | none => simp [pyTruthyStr, hv, pyJoinPair]
      | some s => simp [pyTruthyStr, hv, pyJoinPair]

/-- C8 witness: the variable rule at a concrete list whose second element is
allow-listed. -/
theorem C8_variable_choice_and_requests_witness :
    (["foo", "precip"].find? (fun x => known_variables.contains x) = some "precip") ∧
    chooseXarrayVariable ["foo", "precip"] = some "precip" :=
  ⟨by decide, C8_variable_choice_and_requests.1 ["foo", "precip"] "precip" (by decide)⟩

end TCC
